import Mathlib

/-!
Verification of the AREDN network monitor against its specification.

The Python sources (database.py, scanner.py, rf_stats.py, app.py, config.py)
are shallowly embedded below.  SQL rows become Lean structures, tables become
lists, `datetime.now()` becomes an explicit integer timestamp parameter
(the stored `%Y-%m-%d %H:%M:%S` strings compare lexicographically exactly as
the integers do), and network / subprocess I/O becomes explicit function
parameters describing the observed outcome.
-/

namespace AREDN

/-- Status column of a link row: 'good', 'dropped' or 'removed'. -/
inductive LinkStatus where
  | good
  | dropped
  | removed
deriving DecidableEq, Repr

/-- One row of the `links` table (database.py, init_db). -/
structure Link where
  source_node : String
  target_node : String
  link_type : String
  quality : Int
  snr : Option Int
  distance : Option Int
  first_seen : Int
  last_seen : Int
  stable_since : Int
  drop_count : Nat
  status : LinkStatus
deriving DecidableEq, Repr

/-- One row of the `nodes` table (database.py, init_db). -/
structure Node where
  name : String
  ip : Option String
  description : Option String
  model : Option String
  firmware_version : Option String
  lat : Option Rat
  lon : Option Rat
  rf_frequency : Option String
  rf_channel : Option String
  first_seen : Int
  last_seen : Int
  is_active : Bool
  is_supernode : Bool
deriving DecidableEq, Repr

/-- An `events` table row (database.py, log_event). -/
structure Event where
  event_type : String
  node_name : Option String
  details : String
  severity : String
deriving DecidableEq, Repr

/-- The persistent store: the tables the claims touch. -/
structure DB where
  nodes : List Node
  links : List Link
  events : List Event
deriving Repr

/-- SQL COALESCE over two nullable values. -/
def coalesce {α : Type} (a b : Option α) : Option α :=
  match a with
  | some v => some v
  | none => b

/-- database.get_node: first row of the nodes table with the given name. -/
def get_node (db : DB) (name : String) : Option Node :=
  db.nodes.find? (fun n => n.name == name)

/-- database.get_link: first row of the links table with the given key. -/
def get_link (db : DB) (source target : String) : Option Link :=
  db.links.find? (fun l => l.source_node == source && l.target_node == target)

/-- Arguments of database.upsert_node; None is SQL NULL. -/
structure NodeArgs where
  name : String
  ip : Option String := none
  description : Option String := none
  model : Option String := none
  firmware_version : Option String := none
  lat : Option Rat := none
  lon : Option Rat := none
  rf_frequency : Option String := none
  rf_channel : Option String := none
  is_supernode : Bool := false
deriving Repr

/-- database.upsert_node: INSERT .. ON CONFLICT(name) DO UPDATE with
COALESCE(excluded.field, field) merge, last_seen = now, is_active = 1,
is_supernode overwritten unconditionally. -/
def upsert_node (db : DB) (now : Int) (a : NodeArgs) : DB :=
  match get_node db a.name with
  | none =>
    { db with nodes := db.nodes ++
        [{ name := a.name, ip := a.ip, description := a.description,
           model := a.model, firmware_version := a.firmware_version,
           lat := a.lat, lon := a.lon, rf_frequency := a.rf_frequency,
           rf_channel := a.rf_channel, first_seen := now, last_seen := now,
           is_active := true, is_supernode := a.is_supernode }] }
  | some _ =>
    { db with nodes := db.nodes.map (fun n =>
        if n.name == a.name then
          { n with ip := coalesce a.ip n.ip,
                   description := coalesce a.description n.description,
                   model := coalesce a.model n.model,
                   firmware_version := coalesce a.firmware_version n.firmware_version,
                   lat := coalesce a.lat n.lat,
                   lon := coalesce a.lon n.lon,
                   rf_frequency := coalesce a.rf_frequency n.rf_frequency,
                   rf_channel := coalesce a.rf_channel n.rf_channel,
                   last_seen := now,
                   is_active := true,
                   is_supernode := a.is_supernode }
        else n) }

/-- Arguments of database.upsert_link. -/
structure LinkArgs where
  source_node : String
  target_node : String
  link_type : String
  quality : Int := 0
  snr : Option Int := none
  distance : Option Int := none
deriving Repr

/-- database.upsert_link: a previously dropped/removed row is revived to
'good' with drop_count + 1 and stable_since = now; otherwise the ordinary
INSERT .. ON CONFLICT upsert runs (COALESCE on snr/distance, status and
stable_since untouched on an existing good row, defaults on a new row). -/
def upsert_link (db : DB) (now : Int) (a : LinkArgs) : DB :=
  match get_link db a.source_node a.target_node with
  | some l =>
    if l.status = .dropped ∨ l.status = .removed then
      { db with links := db.links.map (fun r =>
          if r.source_node == a.source_node && r.target_node == a.target_node then
            { r with link_type := a.link_type, quality := a.quality,
                     snr := a.snr, distance := a.distance,
                     last_seen := now, stable_since := now,
                     drop_count := r.drop_count + 1, status := .good }
          else r) }
    else
      { db with links := db.links.map (fun r =>
          if r.source_node == a.source_node && r.target_node == a.target_node then
            { r with link_type := a.link_type, quality := a.quality,
                     snr := coalesce a.snr r.snr,
                     distance := coalesce a.distance r.distance,
                     last_seen := now }
          else r) }
  | none =>
    { db with links := db.links ++
        [{ source_node := a.source_node, target_node := a.target_node,
           link_type := a.link_type, quality := a.quality,
           snr := a.snr, distance := a.distance,
           first_seen := now, last_seen := now, stable_since := now,
           drop_count := 0, status := .good }] }

/-- Predicate of database.mark_stale_links_dropped's WHERE clause. -/
def stale_link_pred (now timeout_seconds : Int) (l : Link) : Bool :=
  decide (l.last_seen < now - timeout_seconds) &&
    !(l.status = LinkStatus.dropped : Bool) && !(l.status = LinkStatus.removed : Bool)

/-- database.get_links_to_drop: the rows the drop sweep will touch. -/
def get_links_to_drop (db : DB) (now timeout_seconds : Int) :
    List (String × String × String) :=
  (db.links.filter (stale_link_pred now timeout_seconds)).map
    (fun l => (l.source_node, l.target_node, l.link_type))

/-- database.mark_stale_links_dropped: set status = 'dropped' on every stale
non-dropped non-removed row; returns the new table and the rowcount. -/
def mark_stale_links_dropped (db : DB) (now timeout_seconds : Int) : DB × Nat :=
  ({ db with links := db.links.map (fun l =>
      if stale_link_pred now timeout_seconds l then { l with status := .dropped } else l) },
   (db.links.filter (stale_link_pred now timeout_seconds)).length)

/-- Predicate of database.remove_old_dropped_links's WHERE clause. -/
def old_dropped_pred (now remove_after_seconds : Int) (l : Link) : Bool :=
  decide (l.last_seen < now - remove_after_seconds) && (l.status = LinkStatus.dropped : Bool)

/-- database.remove_old_dropped_links: set status = 'removed' on every dropped
row whose last_seen is older than the cutoff; returns table and rowcount. -/
def remove_old_dropped_links (db : DB) (now remove_after_seconds : Int) : DB × Nat :=
  ({ db with links := db.links.map (fun l =>
      if old_dropped_pred now remove_after_seconds l then { l with status := .removed } else l) },
   (db.links.filter (old_dropped_pred now remove_after_seconds)).length)

/-- Predicate of database.mark_stale_nodes_inactive's WHERE clause. -/
def stale_node_pred (now timeout_seconds : Int) (n : Node) : Bool :=
  decide (n.last_seen < now - timeout_seconds) && n.is_active

/-- database.get_nodes_to_mark_inactive. -/
def get_nodes_to_mark_inactive (db : DB) (now timeout_seconds : Int) :
    List (String × Option String) :=
  (db.nodes.filter (stale_node_pred now timeout_seconds)).map (fun n => (n.name, n.ip))

/-- database.mark_stale_nodes_inactive. -/
def mark_stale_nodes_inactive (db : DB) (now timeout_seconds : Int) : DB × Nat :=
  ({ db with nodes := db.nodes.map (fun n =>
      if stale_node_pred now timeout_seconds n then { n with is_active := false } else n) },
   (db.nodes.filter (stale_node_pred now timeout_seconds)).length)

/-- A node has some link row in either direction whose status is not 'removed'
(the NOT EXISTS subquery of the orphan queries, negated). -/
def has_active_link (db : DB) (name : String) : Bool :=
  db.links.any (fun l =>
    (l.source_node == name || l.target_node == name) &&
      !(l.status = LinkStatus.removed : Bool))

/-- database.get_orphan_nodes: active nodes with no non-removed link. -/
def get_orphan_nodes (db : DB) : List (String × Option String) :=
  (db.nodes.filter (fun n => n.is_active && !has_active_link db n.name)).map
    (fun n => (n.name, n.ip))

/-- database.mark_orphan_nodes_inactive: deactivate active nodes that appear
in no non-removed link row.  (Defined in database.py; scanner.py never calls
it.) -/
def mark_orphan_nodes_inactive (db : DB) : DB × Nat :=
  ({ db with nodes := db.nodes.map (fun n =>
      if n.is_active && !has_active_link db n.name then { n with is_active := false } else n) },
   (db.nodes.filter (fun n => n.is_active && !has_active_link db n.name)).length)

/-- database.log_event: append a row to the events table. -/
def log_event (db : DB) (e : Event) : DB :=
  { db with events := db.events ++ [e] }

/-- config.LINK_TIMEOUT (seconds until a stale link is dropped). -/
def LINK_TIMEOUT : Int := 300

/-- config.LINK_REMOVE_AFTER (seconds until a dropped link is removed). -/
def LINK_REMOVE_AFTER : Int := 600

/-- Python str.lower on the ASCII identifiers this program handles. -/
def str_lower (s : String) : String :=
  String.mk (s.toList.map Char.toLower)

/-- Python str.upper on the ASCII identifiers this program handles. -/
def str_upper (s : String) : String :=
  String.mk (s.toList.map Char.toUpper)

/-- Does the pattern start the text (character lists)? -/
def chars_has_pre : List Char → List Char → Bool
  | [], _ => true
  | _ :: _, [] => false
  | a :: as, b :: bs => a == b && chars_has_pre as bs

/-- Does the text contain the pattern as a contiguous substring? -/
def chars_contains (pat : List Char) : List Char → Bool
  | [] => pat.isEmpty
  | c :: rest => chars_has_pre pat (c :: rest) || chars_contains pat rest

/-- Python `needle in hay` for strings. -/
def str_contains_sub (hay needle : String) : Bool :=
  chars_contains needle.toList hay.toList

/-- Left-to-right non-overlapping replacement of a nonempty pattern; the fuel
is an upper bound on the number of characters consumed (each step consumes at
least one). -/
def chars_replace : List Char → List Char → Nat → List Char → List Char
  | _, _, _, [] => []
  | _, _, 0, s => s
  | pat, rep, fuel+1, c :: rest =>
    if pat.isEmpty then c :: rest
    else if chars_has_pre pat (c :: rest) then
      rep ++ chars_replace pat rep fuel (List.drop pat.length (c :: rest))
    else c :: chars_replace pat rep fuel rest

/-- Python str.replace (all occurrences). -/
def str_replace_all (s pat rep : String) : String :=
  String.mk (chars_replace pat.toList rep.toList s.toList.length s.toList)

/-- config.STARTING_NODE. -/
def STARTING_NODE : String :=
  "http://localnode.local.mesh/cgi-bin/sysinfo.json?lqm=1&hosts=1&services=1&services_local=1"

/-- scanner.build_sysinfo_url: strip any scheme, keep the host part before the
first slash, and append the sysinfo query path. -/
def build_sysinfo_url (ip_or_hostname : String) : String :=
  let stripped := str_replace_all (str_replace_all ip_or_hostname "http://" "") "https://" ""
  let host := String.mk (stripped.toList.takeWhile (fun c => !(c == '/')))
  "http://" ++ host ++ "/cgi-bin/sysinfo.json?lqm=1&hosts=1&services=1&services_local=1"

/-- scanner.normalize_start_url. -/
def normalize_start_url (url : String) : String :=
  if url == "" then STARTING_NODE
  else if !(str_contains_sub url "/cgi-bin/sysinfo.json") then build_sysinfo_url url
  else url

/-- One LQM tracker entry of a node's sysinfo report, after the keyed-map /
list normalization of scanner.process_links (both encodings yield a sequence
of tracker records in report order).  `quality` is the value after the
`int(...)`-with-default-0 normalization. -/
structure TrackerData where
  ttype : String
  hostname : String
  canonical_ip : Option String
  quality : Int
  snr : Option Int
  distance : Option Int
  routable : Bool
deriving DecidableEq, Repr

/-- A node's parsed sysinfo.json self-report, at the granularity the scanner
reads it: name, node_details fields, coordinates, meshrf fields, the br-lan
interface IP, and the tracker table. -/
structure SysinfoData where
  node : String
  supernode_flag : Bool
  description : String
  model : String
  firmware_version : String
  lat : Option Rat
  lon : Option Rat
  rf_frequency : String
  rf_channel : String
  ip : Option String
  trackers : List TrackerData
deriving Repr

/-- scanner.is_supernode: explicit flag, or the marker word in the lowercased
name or description. -/
def is_supernode (d : SysinfoData) : Bool :=
  d.supernode_flag ||
    str_contains_sub (str_lower d.node) "supernode" ||
    str_contains_sub (str_lower d.description) "supernode"

/-- Value of a nonempty digit string, None otherwise. -/
def digits_val (cs : List Char) : Option Nat :=
  if cs.isEmpty then none
  else cs.foldl (fun acc c =>
    match acc with
    | none => none
    | some n => if c.isDigit then some (n * 10 + (c.toNat - 48)) else none) (some 0)

/-- Python float() restricted to the plain decimal literals the frequency
fields carry; used only for the ≥ 1 MHz frequency-change gate. -/
def parse_float_lit (s : String) : Option Rat :=
  let cs := s.toList
  let intPart := cs.takeWhile (fun c => !(c == '.'))
  let rest := cs.drop intPart.length
  match rest with
  | [] => (digits_val intPart).map (fun n => (n : Rat))
  | _ :: fracPart =>
    match digits_val intPart, digits_val fracPart with
    | some i, some f => some ((i : Rat) + (f : Rat) / ((10 : Rat) ^ fracPart.length))
    | _, _ => none

/-- Event type constants of database.py. -/
def EVENT_NODE_DISCOVERED : String := "node_discovered"

/-- Event type constant. -/
def EVENT_NODE_OFFLINE : String := "node_offline"

/-- Event type constant. -/
def EVENT_NODE_ONLINE : String := "node_online"

/-- Event type constant. -/
def EVENT_LINK_NEW : String := "link_new"

/-- Event type constant. -/
def EVENT_LINK_DROPPED : String := "link_dropped"

/-- Event type constant. -/
def EVENT_LINK_RESTORED : String := "link_restored"

/-- Event type constant. -/
def EVENT_FREQUENCY_CHANGE : String := "frequency_change"

/-- Coordinate normalization of scanner.process_node_data:
`float(data.get('lat', 0)) or None` maps zero (and absent/unparseable,
already None in the input) to None. -/
def zero_to_none (x : Option Rat) : Option Rat :=
  match x with
  | some v => if v = 0 then none else some v
  | none => none

/-- scanner.process_node_data: reject a nameless report, synthesize
discovered / back-online / frequency-change events against the stored node,
then upsert the node.  (The service-table replacement is omitted: no claim
mentions services.)  Returns the canonical node name, the events, and the
updated store. -/
def process_node_data (db : DB) (now : Int) (data : SysinfoData) :
    Option String × List Event × DB :=
  let node_name := str_lower data.node
  if node_name == "" then (none, [], db)
  else
    let supernode := is_supernode data
    let rf_frequency := data.rf_frequency
    let events :=
      match get_node db node_name with
      | none =>
        [⟨EVENT_NODE_DISCOVERED, some node_name, "Model: " ++ data.model, "info"⟩]
      | some en =>
        let ev1 : List Event :=
          if en.is_active then []
          else [⟨EVENT_NODE_ONLINE, some node_name, "Node back online", "info"⟩]
        let old_freq := en.rf_frequency.getD ""
        let ev2 : List Event :=
          if !(old_freq == "") && !(rf_frequency == "") && !(old_freq == rf_frequency) then
            match parse_float_lit old_freq, parse_float_lit rf_frequency with
            | some o, some n2 =>
              if 1 ≤ |n2 - o| then
                [⟨EVENT_FREQUENCY_CHANGE, some node_name,
                  "Frequency changed: " ++ old_freq ++ " MHz -> " ++ rf_frequency ++ " MHz",
                  "warning"⟩]
              else []
            | _, _ => []
          else []
        ev1 ++ ev2
    let db1 := upsert_node db now
      { name := node_name, ip := data.ip, description := some data.description,
        model := some data.model, firmware_version := some data.firmware_version,
        lat := zero_to_none data.lat, lon := zero_to_none data.lon,
        rf_frequency := some rf_frequency, rf_channel := some data.rf_channel,
        is_supernode := supernode }
    (some node_name, events, db1)

/-- A frontier candidate produced by scanner.process_links. -/
structure Discovered where
  hostname : String
  ip : String
  url : String
deriving DecidableEq, Repr

/-- The tunnel link types of scanner.process_links. -/
def tunnel_types : List String := ["WIREGUARD", "TUN", "TUNNEL", "VTUN", "WG"]

/-- Python truthiness of the canonical_ip field (None and '' are falsy). -/
def truthy_str : Option String → Bool
  | none => false
  | some s => !(s == "")

/-- Body of the tracker loop of scanner.process_links, for one tracker:
skip a hostname-less tracker; persist the link (with new / restored events)
unless it is a tunnel link and tunnels are hidden; and independently append a
frontier candidate when the tracker is routable with a truthy canonical IP. -/
def process_one_tracker (show_tunnels : Bool) (now : Int) (source_node : String)
    (acc : DB × List Discovered × List Event) (t : TrackerData) :
    DB × List Discovered × List Event :=
  let db := acc.1
  let disc := acc.2.1
  let events := acc.2.2
  let link_type := t.ttype
  let hostname := str_lower t.hostname
  if hostname == "" then acc
  else
    let is_tunnel := tunnel_types.contains (str_upper link_type)
    let persisted : DB × List Event :=
      if !is_tunnel || show_tunnels then
        let evs :=
          match get_link db source_node hostname with
          | none =>
            events ++ [⟨EVENT_LINK_NEW, some source_node,
              "New " ++ link_type ++ " link to " ++ hostname, "info"⟩]
          | some l =>
            if l.status = .dropped then
              events ++ [⟨EVENT_LINK_RESTORED, some source_node,
                link_type ++ " link to " ++ hostname ++ " restored", "info"⟩]
            else events
        (upsert_link db now
          { source_node := source_node, target_node := hostname,
            link_type := link_type, quality := t.quality,
            snr := t.snr, distance := t.distance }, evs)
      else (db, events)
    let disc1 :=
      if t.routable && truthy_str t.canonical_ip then
        disc ++ [{ hostname := hostname, ip := t.canonical_ip.getD "",
                   url := build_sysinfo_url (t.canonical_ip.getD "") }]
      else disc
    (persisted.1, disc1, persisted.2)

/-- scanner.process_links: fold the tracker loop over the report's trackers.
Returns the updated store, the frontier candidates, and the link events. -/
def process_links (show_tunnels : Bool) (now : Int) (db : DB) (source_node : String)
    (trackers : List TrackerData) : DB × List Discovered × List Event :=
  trackers.foldl (process_one_tracker show_tunnels now source_node) (db, [], [])

/-- The loop state of scanner.discover_network.  `fetched` and `processed`
are ghost observation logs: every (url, depth) passed to fetch_node_info, and
every report that reached process_links. -/
structure ScanState where
  visited_urls : List String
  visited_nodes : List String
  queue : List (String × Nat)
  nodes_found : Nat
  links_found : Nat
  errors : List String
  max_depth_reached : Nat
  all_events : List Event
  db : DB
  fetched : List (String × Nat)
  processed : List SysinfoData
deriving Repr

/-- One iteration of the BFS loop of scanner.discover_network: dequeue,
skip visited addresses, fetch, process the node and its links, and expand the
frontier only below max_depth and never past a supernode. -/
def discover_step (net : String → Option SysinfoData) (show_tunnels : Bool)
    (max_depth : Nat) (now : Int) (st : ScanState) : ScanState :=
  match st.queue with
  | [] => st
  | (url, depth) :: rest =>
    let st1 := { st with queue := rest }
    let normalized := str_lower url
    if st1.visited_urls.contains normalized then st1
    else
      let st2 := { st1 with visited_urls := normalized :: st1.visited_urls,
                            fetched := (url, depth) :: st1.fetched }
      match net url with
      | none => { st2 with errors := st2.errors ++ ["Failed to fetch: " ++ url] }
      | some data =>
        let pnd := process_node_data st2.db now data
        let st3 := { st2 with all_events := st2.all_events ++ pnd.2.1, db := pnd.2.2 }
        match pnd.1 with
        | none => { st3 with errors := st3.errors ++ ["Invalid node data from: " ++ url] }
        | some node_name =>
          let st4 :=
            if st3.visited_nodes.contains node_name then st3
            else { st3 with visited_nodes := node_name :: st3.visited_nodes,
                            nodes_found := st3.nodes_found + 1,
                            max_depth_reached := max st3.max_depth_reached depth }
          let supernode := is_supernode data
          let pl := process_links show_tunnels now st4.db node_name data.trackers
          let st5 := { st4 with db := pl.1,
                                all_events := st4.all_events ++ pl.2.2,
                                links_found := st4.links_found + pl.2.1.length,
                                processed := st4.processed ++ [data] }
          if depth < max_depth && !supernode then
            { st5 with queue := st5.queue ++
                ((pl.2.1.filter (fun d => !(st5.visited_urls.contains (str_lower d.url)))).map
                  (fun d => (d.url, depth + 1))) }
          else st5

/-- The BFS loop, driven by fuel (the Python loop runs until the queue
empties; every safety property below holds for every fuel). -/
def discover_loop (net : String → Option SysinfoData) (show_tunnels : Bool)
    (max_depth : Nat) (now : Int) : Nat → ScanState → ScanState
  | 0, st => st
  | fuel + 1, st =>
    match st.queue with
    | [] => st
    | _ :: _ => discover_loop net show_tunnels max_depth now fuel
        (discover_step net show_tunnels max_depth now st)

/-- The initial loop state of scanner.discover_network. -/
def init_scan_state (start_url : String) (db : DB) : ScanState :=
  { visited_urls := [], visited_nodes := [],
    queue := [(normalize_start_url start_url, 0)],
    nodes_found := 0, links_found := 0, errors := [],
    max_depth_reached := 0, all_events := [], db := db,
    fetched := [], processed := [] }

/-- scanner.discover_network. -/
def discover_network (net : String → Option SysinfoData) (show_tunnels : Bool)
    (start_url : String) (max_depth : Nat) (now : Int) (fuel : Nat) (db : DB) : ScanState :=
  discover_loop net show_tunnels max_depth now fuel (init_scan_state start_url db)

/-- Result record of scanner.update_link_statuses. -/
structure LinkSweepResult where
  db : DB
  dropped : Nat
  removed : Nat
  dropped_links : List (String × String × String)
  events : List Event
deriving Repr

/-- scanner.update_link_statuses: collect the to-drop rows for events, then
mark stale links dropped, then remove old dropped links, in that order. -/
def update_link_statuses (db : DB) (now : Int) : LinkSweepResult :=
  let dropped_links := get_links_to_drop db now LINK_TIMEOUT
  let events := dropped_links.map (fun dl =>
    ⟨EVENT_LINK_DROPPED, some dl.1, dl.2.2 ++ " link to " ++ dl.2.1 ++ " dropped", "warning"⟩)
  let p1 := mark_stale_links_dropped db now LINK_TIMEOUT
  let p2 := remove_old_dropped_links p1.1 now LINK_REMOVE_AFTER
  ⟨p2.1, p1.2, p2.2, dropped_links, events⟩

/-- Result record of scanner.update_node_statuses. -/
structure NodeSweepResult where
  db : DB
  marked_inactive : Nat
  inactive_nodes : List (String × Option String)
  events : List Event
deriving Repr

/-- scanner.update_node_statuses: collect the to-deactivate rows for events,
then mark stale nodes inactive.  This is the complete node sweep run by the
scan: it never consults the orphan queries. -/
def update_node_statuses (db : DB) (now : Int) : NodeSweepResult :=
  let inactive_nodes := get_nodes_to_mark_inactive db now LINK_TIMEOUT
  let events := inactive_nodes.map (fun n =>
    (⟨EVENT_NODE_OFFLINE, some n.1, "Node offline", "warning"⟩ : Event))
  let p := mark_stale_nodes_inactive db now LINK_TIMEOUT
  ⟨p.1, p.2, inactive_nodes, events⟩

/-- Result record of scanner.run_scan. -/
structure ScanResult where
  db : DB
  nodes_found : Nat
  links_found : Nat
  nodes_visited : Nat
  max_depth_reached : Nat
  errors : List String
  events : List Event
  dropped : Nat
  removed : Nat
  dropped_links : List (String × String × String)
  inactive_nodes : List (String × Option String)
deriving Repr

/-- scanner.run_scan: discovery, then the link sweep, then the node sweep,
then durable logging of all synthesized events. -/
def run_scan (net : String → Option SysinfoData) (show_tunnels : Bool)
    (start_url : String) (max_depth : Nat) (now : Int) (fuel : Nat) (db : DB) : ScanResult :=
  let d := discover_network net show_tunnels start_url max_depth now fuel db
  let ls := update_link_statuses d.db now
  let ns := update_node_statuses ls.db now
  let all_events := (d.all_events ++ ls.events) ++ ns.events
  let dbFinal := all_events.foldl log_event ns.db
  ⟨dbFinal, d.nodes_found, d.links_found, d.visited_nodes.length, d.max_depth_reached,
   d.errors, all_events, ls.dropped, ls.removed, ls.dropped_links, ns.inactive_nodes⟩

/-- Latency probe result record of rf_stats.ping_node: {min, avg, max, loss}. -/
structure PingResult where
  min : Option Rat
  avg : Option Rat
  max : Option Rat
  loss : Rat
deriving DecidableEq, Repr

/-- The total-loss record: loss 100, all timing fields null. -/
def total_loss_result : PingResult := ⟨none, none, none, 100⟩

/-- Regex match results rf_stats.ping_node extracts from Windows ping output:
the loss percentage, the Minimum/Maximum/Average statistics line, the single
reply line time, and whether the output reports a timeout / unreachable host. -/
structure WindowsPingOutput where
  loss_match : Option Nat
  stats_match : Option (Nat × Nat × Nat)
  reply_match : Option Nat
  timed_out_text : Bool
deriving DecidableEq, Repr

/-- Regex match results rf_stats.ping_node extracts from Linux/macOS ping
output: the packet-loss percentage and the rtt min/avg/max statistics line. -/
structure UnixPingOutput where
  loss_match : Option Nat
  stats_match : Option (Rat × Rat × Rat)
deriving DecidableEq, Repr

/-- Observed outcome of the ping subprocess, at the granularity ping_node
inspects it: platform-tagged parsed output, a subprocess timeout, or any
other exception. -/
inductive PingOutcome where
  | windows (o : WindowsPingOutput)
  | unix (o : UnixPingOutput)
  | timeout_expired
  | exception
deriving Repr

/-- The Windows branch of rf_stats.ping_node's output parsing.  The stats
tuple is (Minimum, Maximum, Average) in regex group order; the returned
record is {min := g1, avg := g3, max := g2}.  The explicit timed-out check
and the common fallthrough both produce the total-loss record. -/
def ping_node_windows (o : WindowsPingOutput) : PingResult :=
  let loss : Rat := match o.loss_match with | some n => (n : Rat) | none => 100
  match o.stats_match with
  | some s =>
    if loss < 100 then ⟨some (s.1 : Rat), some (s.2.2 : Rat), some (s.2.1 : Rat), loss⟩
    else
      match o.reply_match with
      | some t => ⟨some (t : Rat), some (t : Rat), some (t : Rat), 0⟩
      | none => total_loss_result
  | none =>
    match o.reply_match with
    | some t => ⟨some (t : Rat), some (t : Rat), some (t : Rat), 0⟩
    | none => total_loss_result

/-- The Linux/macOS branch of rf_stats.ping_node's output parsing.  The stats
tuple is (min, avg, max) in regex group order. -/
def ping_node_unix (o : UnixPingOutput) : PingResult :=
  let loss : Rat := match o.loss_match with | some n => (n : Rat) | none => 100
  match o.stats_match with
  | some s =>
    if loss < 100 then ⟨some s.1, some s.2.1, some s.2.2, loss⟩
    else total_loss_result
  | none => total_loss_result

/-- rf_stats.ping_node: None for a falsy (empty) address; otherwise a result
is always produced — parse failures, subprocess timeouts and exceptions all
degrade to the total-loss record.  count and timeout only shape the command
line, never the result structure. -/
def ping_node (ip_address : String) (count timeout : Nat) (oc : PingOutcome) :
    Option PingResult :=
  if ip_address == "" then none
  else
    some (match oc with
      | .windows o => ping_node_windows o
      | .unix o => ping_node_unix o
      | .timeout_expired => total_loss_result
      | .exception => total_loss_result)

/-- An entry of the iperf test queue of rf_stats. -/
structure QueueItem where
  source : String
  target : String
  priority : Nat
  queued_at : Int
deriving DecidableEq, Repr

/-- rf_stats.queue_iperf_test: re-enqueueing an already queued
(source, target) pair is a no-op. -/
def queue_iperf_test (q : List QueueItem) (source target : String)
    (priority : Nat) (now : Int) : List QueueItem :=
  if q.any (fun item => item.source == source && item.target == target) then q
  else q ++ [⟨source, target, priority, now⟩]

/-- The entry Python's stable sort by priority puts first: the earliest entry
of minimal priority. -/
def min_priority_item : List QueueItem → Option QueueItem
  | [] => none
  | i :: rest =>
    match min_priority_item rest with
    | none => some i
    | some j => if i.priority ≤ j.priority then some i else some j

/-- Python list.remove: drop the first element equal to the given one. -/
def remove_item : List QueueItem → QueueItem → List QueueItem
  | [], _ => []
  | x :: xs, y => if x == y then xs else x :: remove_item xs y

/-- The module state of rf_stats read and written by process_iperf_queue. -/
structure IperfState where
  iperf_running : Bool
  iperf_queue : List QueueItem
deriving Repr

/-- Outcome of the try block of one process_iperf_queue run, covering every
path: the target has no stored IP, the quality re-check fails, the probe
returns None, or the probe succeeds. -/
inductive IperfBodyOutcome where
  | no_ip
  | quality_too_low
  | probe_failed
  | probe_succeeded (tx rx : Rat)
deriving Repr

/-- rf_stats.process_iperf_queue as a sequential state transformer: skip when
a test is already running or the queue is empty; otherwise pop the earliest
lowest-priority entry, set the running flag, run the try block (none of whose
paths touch the flag or the queue; its link-history writes are outside the
modeled state), and clear the flag in the finally block on every path. -/
def process_iperf_queue (s : IperfState) (oc : IperfBodyOutcome) : IperfState :=
  if s.iperf_running then s
  else
    match min_priority_item s.iperf_queue with
    | none => s
    | some item =>
      let s1 : IperfState := ⟨true, remove_item s.iperf_queue item⟩
      let s2 : IperfState :=
        match oc with
        | .no_ip => s1
        | .quality_too_low => s1
        | .probe_failed => s1
        | .probe_succeeded _ _ => s1
      ⟨false, s2.iperf_queue⟩

/-- Phase of one thread concurrently invoking process_iperf_queue.  testing
and finishing together form the region in which that thread's throughput
test is executing (the running flag acquired and not yet released). -/
inductive IperfPhase where
  | entry
  | testing
  | finishing
  | done
deriving DecidableEq, Repr

/-- State of n concurrent invocations of process_iperf_queue over the shared
module state. -/
structure IperfSys (n : Nat) where
  iperf_running : Bool
  iperf_queue : List QueueItem
  threads : Fin n → IperfPhase

/-- Is a thread inside the test-execution region? -/
def in_test_region : IperfPhase → Bool
  | .testing => true
  | .finishing => true
  | .entry => false
  | .done => false

/-- Interleaved small-step semantics of concurrent process_iperf_queue
invocations.  The two iperf_lock-protected blocks of the source — the entry
check-and-acquire and the finally release — are single atomic steps, because
the Python code holds the lock for their whole duration; the try block
between them runs without the lock. -/
inductive IperfStep {n : Nat} : IperfSys n → IperfSys n → Prop where
  | skip_running (s : IperfSys n) (i : Fin n) :
      s.threads i = .entry → s.iperf_running = true →
      IperfStep s ⟨s.iperf_running, s.iperf_queue, Function.update s.threads i .done⟩
  | skip_empty (s : IperfSys n) (i : Fin n) :
      s.threads i = .entry → s.iperf_running = false →
      min_priority_item s.iperf_queue = none →
      IperfStep s ⟨s.iperf_running, s.iperf_queue, Function.update s.threads i .done⟩
  | acquire (s : IperfSys n) (i : Fin n) (item : QueueItem) :
      s.threads i = .entry → s.iperf_running = false →
      min_priority_item s.iperf_queue = some item →
      IperfStep s ⟨true, remove_item s.iperf_queue item, Function.update s.threads i .testing⟩
  | run_body (s : IperfSys n) (i : Fin n) :
      s.threads i = .testing →
      IperfStep s ⟨s.iperf_running, s.iperf_queue, Function.update s.threads i .finishing⟩
  | release (s : IperfSys n) (i : Fin n) :
      s.threads i = .finishing →
      IperfStep s ⟨false, s.iperf_queue, Function.update s.threads i .done⟩

/-- The single-flight invariant: the running flag is set exactly when some
thread is inside the test region, and at most one thread ever is. -/
def iperf_inv {n : Nat} (s : IperfSys n) : Prop :=
  (s.iperf_running = true ↔ ∃ i, in_test_region (s.threads i) = true) ∧
  (∀ i j, in_test_region (s.threads i) = true → in_test_region (s.threads j) = true → i = j)

/-- The status transitions the spec permits for a stored link row: unchanged,
any state to good, good to dropped, or dropped to removed.  A direct good to
removed move is not in this relation. -/
def allowed_status_transition (a b : LinkStatus) : Prop :=
  a = b ∨ b = .good ∨ (a = .good ∧ b = .dropped) ∨ (a = .dropped ∧ b = .removed)

/-- The condition under which process_links appends a tracker to the
discovered frontier candidates: non-empty hostname, routable, truthy
canonical IP. -/
def frontier_pred (t : TrackerData) : Bool :=
  !(str_lower t.hostname == "") && (t.routable && truthy_str t.canonical_ip)

/-- The frontier candidate process_links emits for a qualifying tracker. -/
def tracker_candidate (t : TrackerData) : Discovered :=
  ⟨str_lower t.hostname, t.canonical_ip.getD "",
   build_sysinfo_url (t.canonical_ip.getD "")⟩

/-- The trackers of one report that process_links turns into frontier
candidates. -/
def count_frontier (d : SysinfoData) : Nat :=
  (d.trackers.filter frontier_pred).length

/-- Modelled from the claim's words, for comparison with the code: the count
C10 says links_found equals — routable trackers carrying a canonical IP, with
no hostname requirement. -/
def claimed_links_count (d : SysinfoData) : Nat :=
  (d.trackers.filter (fun t => t.routable && truthy_str t.canonical_ip)).length

/-- Concrete inputs for the witness and counterexample theorems below. -/
def empty_db : DB := ⟨[], [], []⟩

/-- A good link last refreshed at time 0. -/
def ex_good_link : Link := ⟨"alpha", "bravo", "RF", 90, none, none, 0, 0, 0, 0, .good⟩

/-- A store holding only ex_good_link. -/
def ex_stale_db : DB := ⟨[], [ex_good_link], []⟩

/-- A dropped link with two prior drops. -/
def ex_dropped_link : Link := ⟨"alpha", "bravo", "RF", 50, none, none, 0, 100, 50, 2, .dropped⟩

/-- A store holding only ex_dropped_link. -/
def ex_dropped_db : DB := ⟨[], [ex_dropped_link], []⟩

/-- A fresh observation of the alpha-to-bravo link. -/
def ex_link_args : LinkArgs := ⟨"alpha", "bravo", "RF", 80, some 20, some 1500⟩

/-- First node observation: ip and model known. -/
def ex_node_args1 : NodeArgs := { name := "alpha", ip := some "10.0.0.1", model := some "M1" }

/-- Second node observation: model updated, everything else null. -/
def ex_node_args2 : NodeArgs := { name := "alpha", model := some "M2" }

/-- The node row produced by upserting ex_node_args1 into an empty store at
time 5. -/
def ex_node_after1 : Node :=
  ⟨"alpha", some "10.0.0.1", none, some "M1", none, none, none, none, none, 5, 5, true, false⟩

/-- The node row after the second upsert (ex_node_args2 at time 9). -/
def ex_node_after2 : Node :=
  ⟨"alpha", some "10.0.0.1", none, some "M2", none, none, none, none, none, 5, 9, true, false⟩

/-- An active node with a fresh last_seen (time 1000) and no link rows at
all: an orphan in the sense of the orphan queries. -/
def ex_fresh_orphan : Node :=
  ⟨"charlie", some "10.1.1.1", none, none, none, none, none, none, none, 1000, 1000, true, false⟩

/-- A store holding only the fresh orphan node. -/
def ex_orphan_db : DB := ⟨[ex_fresh_orphan], [], []⟩

/-- A supernode report listing one routable neighbor. -/
def ex_super_report : SysinfoData :=
  { node := "charlie", supernode_flag := true, description := "", model := "",
    firmware_version := "", lat := none, lon := none, rf_frequency := "",
    rf_channel := "", ip := some "10.0.0.3",
    trackers := [⟨"RF", "delta", some "10.0.0.4", 90, some 25, none, true⟩] }

/-- A network with the supernode at 10.0.0.3 and nothing else reachable. -/
def ex_super_net : String → Option SysinfoData := fun url =>
  if url == build_sysinfo_url "10.0.0.3" then some ex_super_report else none

/-- A report containing one routable tracker with a canonical IP but an empty
hostname. -/
def ex_anon_report : SysinfoData :=
  { node := "echo", supernode_flag := false, description := "", model := "",
    firmware_version := "", lat := none, lon := none, rf_frequency := "",
    rf_channel := "", ip := some "10.0.0.9",
    trackers := [⟨"RF", "", some "10.9.9.9", 0, none, none, true⟩] }

/-- A network with the single node at 10.0.0.9. -/
def ex_anon_net : String → Option SysinfoData := fun url =>
  if url == build_sysinfo_url "10.0.0.9" then some ex_anon_report else none

/-- One queued throughput test. -/
def ex_queue_item : QueueItem := ⟨"alpha", "bravo", 5, 0⟩

/-- Idle iperf module state with one queued test. -/
def ex_iperf_state : IperfState := ⟨false, [ex_queue_item]⟩

/-- Two concurrent invocations about to enter process_iperf_queue. -/
def ex_iperf_sys : IperfSys 2 := ⟨false, [ex_queue_item], fun _ => .entry⟩

/-- The system after thread 0 of ex_iperf_sys atomically acquires the
running flag and pops the queued test. -/
def ex_iperf_sys2 : IperfSys 2 :=
  ⟨true, remove_item [ex_queue_item] ex_queue_item,
   Function.update (fun _ => IperfPhase.entry) 0 IperfPhase.testing⟩

/-- A routable tunnel tracker (hidden when show_tunnels is false). -/
def ex_tracker_tun : TrackerData := ⟨"WIREGUARD", "foxtrot", some "10.2.2.2", 100, none, none, true⟩

/-- A non-routable RF tracker (persisted but never enqueued). -/
def ex_tracker_rf : TrackerData := ⟨"RF", "golf", none, 80, some 10, none, false⟩

/-- List.find? commutes with mapping by a predicate-preserving function. -/
theorem find?_map_pred_comm {α : Type} (p : α → Bool) (g : α → α) (l : List α)
    (hg : ∀ x, p (g x) = p x) :
    (l.map g).find? p = (l.find? p).map g := by
  rw [List.find?_map]
  have h : p ∘ g = p := funext hg
  rw [h]

/-- Looking up a link after mapping the links table by a key-preserving
function returns the image of the old lookup. -/
theorem get_link_map (db : DB) (g : Link → Link) (s t : String)
    (hs : ∀ l, (g l).source_node = l.source_node)
    (ht : ∀ l, (g l).target_node = l.target_node) :
    get_link { db with links := db.links.map g } s t = (get_link db s t).map g := by
  unfold get_link
  exact find?_map_pred_comm _ g db.links (fun x => by rw [hs x, ht x])

/-- Looking up a node after mapping the nodes table by a name-preserving
function returns the image of the old lookup. -/
theorem get_node_map (db : DB) (g : Node → Node) (nm : String)
    (hn : ∀ n, (g n).name = n.name) :
    get_node { db with nodes := db.nodes.map g } nm = (get_node db nm).map g := by
  unfold get_node
  exact find?_map_pred_comm _ g db.nodes (fun x => by rw [hn x])

/-- Appending rows to the links table does not disturb a successful lookup. -/
theorem get_link_append_found (db : DB) (new : List Link) (s t : String) (l : Link)
    (h : get_link db s t = some l) :
    get_link { db with links := db.links ++ new } s t = some l := by
  unfold get_link at h ⊢
  rw [List.find?_append, h]
  rfl

/-- A successful link lookup returns a row with the looked-up key. -/
theorem get_link_key (db : DB) (s t : String) (l : Link)
    (h : get_link db s t = some l) :
    (l.source_node == s && l.target_node == t) = true := by
  unfold get_link at h
  have h2 := List.find?_some h
  exact h2

/-- A successful node lookup returns a row with the looked-up name. -/
theorem get_node_key (db : DB) (nm : String) (n : Node)
    (h : get_node db nm = some n) :
    (n.name == nm) = true := by
  unfold get_node at h
  have h2 := List.find?_some h
  exact h2

/-- The store returned by update_link_statuses is the drop sweep followed by
the removal sweep. -/
theorem update_link_statuses_db (db : DB) (now : Int) :
    (update_link_statuses db now).db =
      (remove_old_dropped_links (mark_stale_links_dropped db now LINK_TIMEOUT).1
        now LINK_REMOVE_AFTER).1 := rfl

/-- Link lookup through the drop sweep. -/
theorem get_link_mark_stale (db : DB) (now timeout_s : Int) (s t : String) :
    get_link (mark_stale_links_dropped db now timeout_s).1 s t =
      (get_link db s t).map (fun r =>
        if stale_link_pred now timeout_s r then { r with status := .dropped } else r) :=
  get_link_map db _ s t (fun r => by split <;> rfl) (fun r => by split <;> rfl)

/-- Link lookup through the removal sweep. -/
theorem get_link_remove_old (db : DB) (now remove_after : Int) (s t : String) :
    get_link (remove_old_dropped_links db now remove_after).1 s t =
      (get_link db s t).map (fun r =>
        if old_dropped_pred now remove_after r then { r with status := .removed } else r) :=
  get_link_map db _ s t (fun r => by split <;> rfl) (fun r => by split <;> rfl)

/-- C1: across upsert_link, mark_stale_links_dropped and
remove_old_dropped_links, the status of any pre-existing link row moves only
along the permitted edges (unchanged, any state to good, good to dropped,
dropped to removed); the direct good-to-removed edge is not permitted. -/
theorem C1_status_transitions_confined :
    (∀ (db : DB) (now : Int) (a : LinkArgs) (s t : String) (l l2 : Link),
        get_link db s t = some l →
        get_link (upsert_link db now a) s t = some l2 →
        allowed_status_transition l.status l2.status) ∧
    (∀ (db : DB) (now timeout_s : Int) (s t : String) (l l2 : Link),
        get_link db s t = some l →
        get_link (mark_stale_links_dropped db now timeout_s).1 s t = some l2 →
        allowed_status_transition l.status l2.status) ∧
    (∀ (db : DB) (now remove_after : Int) (s t : String) (l l2 : Link),
        get_link db s t = some l →
        get_link (remove_old_dropped_links db now remove_after).1 s t = some l2 →
        allowed_status_transition l.status l2.status) ∧
    ¬ allowed_status_transition .good .removed := by
  refine ⟨?_, ?_, ?_, ?_⟩
  · intro db now a s t l l2 h1 h2
    unfold upsert_link at h2
    cases hex : get_link db a.source_node a.target_node with
    | none =>
      rw [hex] at h2
      dsimp only at h2
      rw [get_link_append_found db _ s t l h1] at h2
      have : l = l2 := Option.some.inj h2
      exact Or.inl (by rw [this])
    | some l0 =>
      rw [hex] at h2
      dsimp only at h2
      by_cases hst : l0.status = .dropped ∨ l0.status = .removed
      · rw [if_pos hst] at h2
        rw [get_link_map db _ s t (fun r => by split <;> rfl) (fun r => by split <;> rfl), h1] at h2
        have hl2 := (Option.some.inj h2).symm; dsimp only at hl2
        by_cases hk : (l.source_node == a.source_node && l.target_node == a.target_node) = true
        · rw [if_pos hk] at hl2
          exact Or.inr (Or.inl (by rw [hl2]))
        · rw [if_neg hk] at hl2
          exact Or.inl (by rw [hl2])
      · rw [if_neg hst] at h2
        rw [get_link_map db _ s t (fun r => by split <;> rfl) (fun r => by split <;> rfl), h1] at h2
        have hl2 := (Option.some.inj h2).symm; dsimp only at hl2
        by_cases hk : (l.source_node == a.source_node && l.target_node == a.target_node) = true
        · rw [if_pos hk] at hl2
          exact Or.inl (by rw [hl2])
        · rw [if_neg hk] at hl2
          exact Or.inl (by rw [hl2])
  · intro db now timeout_s s t l l2 h1 h2
    rw [show (mark_stale_links_dropped db now timeout_s).1 =
          { db with links := db.links.map (fun r =>
              if stale_link_pred now timeout_s r then { r with status := .dropped } else r) }
        from rfl,
      get_link_map db _ s t (fun r => by split <;> rfl) (fun r => by split <;> rfl), h1] at h2
    have hl2 := (Option.some.inj h2).symm; dsimp only at hl2
    by_cases hp : stale_link_pred now timeout_s l = true
    · rw [if_pos hp] at hl2
      have hnd : ¬ l.status = .dropped ∧ ¬ l.status = .removed := by
        unfold stale_link_pred at hp
        simp only [Bool.and_eq_true, Bool.not_eq_eq_eq_not, Bool.not_true,
          decide_eq_false_iff_not, decide_eq_true_eq] at hp
        exact ⟨hp.1.2, hp.2⟩
      cases hst : l.status with
      | good => exact Or.inr (Or.inr (Or.inl ⟨rfl, by rw [hl2]⟩))
      | dropped => exact absurd hst hnd.1
      | removed => exact absurd hst hnd.2
    · rw [if_neg hp] at hl2
      exact Or.inl (by rw [hl2])
  · intro db now remove_after s t l l2 h1 h2
    rw [show (remove_old_dropped_links db now remove_after).1 =
          { db with links := db.links.map (fun r =>
              if old_dropped_pred now remove_after r then { r with status := .removed } else r) }
        from rfl,
      get_link_map db _ s t (fun r => by split <;> rfl) (fun r => by split <;> rfl), h1] at h2
    have hl2 := (Option.some.inj h2).symm; dsimp only at hl2
    by_cases hp : old_dropped_pred now remove_after l = true
    · rw [if_pos hp] at hl2
      have hd : l.status = .dropped := by
        unfold old_dropped_pred at hp
        simp only [Bool.and_eq_true, decide_eq_true_eq] at hp
        exact hp.2
      exact Or.inr (Or.inr (Or.inr ⟨hd, by rw [hl2]⟩))
    · rw [if_neg hp] at hl2
      exact Or.inl (by rw [hl2])
  · intro h
    rcases h with h | h | ⟨_, h⟩ | ⟨h, _⟩ <;> exact absurd h (by intro h; cases h)

/-- Witness for C1: a stale good link is marked dropped by the drop sweep,
an allowed transition. -/
theorem C1_witness :
    allowed_status_transition ex_good_link.status
      ({ ex_good_link with status := .dropped } : Link).status :=
  C1_status_transitions_confined.2.1 ex_stale_db 1000 300 "alpha" "bravo"
    ex_good_link { ex_good_link with status := .dropped } rfl rfl

/-- C4: upsert_link on an existing dropped or removed row revives it: status
becomes good, drop_count grows by exactly one, stable_since (and last_seen)
reset to the revival timestamp, and the observation's fields overwrite the
row. -/
theorem C4_revival_increments_drop_count (db : DB) (now : Int) (a : LinkArgs) (l : Link)
    (h1 : get_link db a.source_node a.target_node = some l)
    (h2 : l.status = .dropped ∨ l.status = .removed) :
    get_link (upsert_link db now a) a.source_node a.target_node =
      some { l with link_type := a.link_type, quality := a.quality,
                    snr := a.snr, distance := a.distance,
                    last_seen := now, stable_since := now,
                    drop_count := l.drop_count + 1, status := .good } := by
  have hkey : (l.source_node == a.source_node && l.target_node == a.target_node) = true :=
    get_link_key db a.source_node a.target_node l h1
  unfold upsert_link
  rw [h1]
  dsimp only
  rw [if_pos h2]
  rw [get_link_map db _ a.source_node a.target_node
        (fun r => by split <;> rfl) (fun r => by split <;> rfl), h1]
  simp only [Option.map_some']
  rw [if_pos hkey]

/-- Witness for C4: reviving a dropped link with drop_count 2 yields a good
link with drop_count 3 and stable_since equal to the revival time. -/
theorem C4_revival_witness :
    (ex_dropped_link.status = .dropped ∨ ex_dropped_link.status = .removed) ∧
    get_link (upsert_link ex_dropped_db 500 ex_link_args) "alpha" "bravo" =
      some { ex_dropped_link with
             link_type := "RF", quality := 80, snr := some 20,
             distance := some 1500, last_seen := 500, stable_since := 500,
             drop_count := 3, status := .good } :=
  ⟨Or.inl rfl,
   C4_revival_increments_drop_count ex_dropped_db 500 ex_link_args ex_dropped_link
     rfl (Or.inl rfl)⟩

/-- Counterexample for C2: a good link whose last_seen is older than both
cutoffs first enters dropped during the reconcile run and is nevertheless
marked removed by that same run (its time spent in dropped is zero). -/
theorem C2_counterexample :
    ex_good_link.status = .good ∧
    (get_link (mark_stale_links_dropped ex_stale_db 1000 LINK_TIMEOUT).1
        "alpha" "bravo").map Link.status = some .dropped ∧
    (get_link (update_link_statuses ex_stale_db 1000).db
        "alpha" "bravo").map Link.status = some .removed :=
  ⟨rfl, rfl, rfl⟩

/-- C2 amended: the removal sweep keys on last_seen age, not on time spent in
the dropped state — after update_link_statuses a pre-existing row is removed
exactly when it was already removed or its last_seen is older than
link_remove_after (the drop sweep having run first in the same call). -/
theorem C2_amended_removed_iff_lastseen_old (db : DB) (now : Int) (s t : String) (l l2 : Link)
    (h1 : get_link db s t = some l)
    (h2 : get_link (update_link_statuses db now).db s t = some l2) :
    (l2.status = .removed ↔ (l.status = .removed ∨ l.last_seen < now - LINK_REMOVE_AFTER)) := by
  rw [update_link_statuses_db, get_link_remove_old, get_link_mark_stale, h1] at h2
  simp only [Option.map_some'] at h2
  have hl2 := (Option.some.inj h2).symm
  subst hl2
  by_cases hd : l.last_seen < now - LINK_REMOVE_AFTER
  · have h3 : l.last_seen < now - LINK_TIMEOUT := by
      simp only [LINK_TIMEOUT, LINK_REMOVE_AFTER] at hd ⊢
      omega
    cases hst : l.status <;>
      simp [stale_link_pred, old_dropped_pred, hst, hd, h3]
  · by_cases h3 : l.last_seen < now - LINK_TIMEOUT
    · cases hst : l.status <;>
        simp [stale_link_pred, old_dropped_pred, hst, hd, h3]
    · cases hst : l.status <;>
        simp [stale_link_pred, old_dropped_pred, hst, hd, h3]

/-- Witness for the amended C2 at the concrete stale store. -/
theorem C2_amended_witness :
    (({ ex_good_link with status := .removed } : Link).status = .removed ↔
      (ex_good_link.status = .removed ∨ ex_good_link.last_seen < 1000 - LINK_REMOVE_AFTER)) :=
  C2_amended_removed_iff_lastseen_old ex_stale_db 1000 "alpha" "bravo"
    ex_good_link { ex_good_link with status := .removed } rfl rfl

/-- C9: a second upsert_node of the same name performs a COALESCE merge —
null arguments keep the stored value, non-null arguments overwrite it —
while last_seen is refreshed to the second call's time and is_active is
forced true (is_supernode is overwritten unconditionally). -/
theorem C9_upsert_node_coalesce_merge (db : DB) (now1 now2 : Int) (a1 a2 : NodeArgs)
    (hname : a2.name = a1.name) (n1 n2 : Node)
    (h1 : get_node (upsert_node db now1 a1) a1.name = some n1)
    (h2 : get_node (upsert_node (upsert_node db now1 a1) now2 a2) a1.name = some n2) :
    n2 = { n1 with
      ip := coalesce a2.ip n1.ip,
      description := coalesce a2.description n1.description,
      model := coalesce a2.model n1.model,
      firmware_version := coalesce a2.firmware_version n1.firmware_version,
      lat := coalesce a2.lat n1.lat,
      lon := coalesce a2.lon n1.lon,
      rf_frequency := coalesce a2.rf_frequency n1.rf_frequency,
      rf_channel := coalesce a2.rf_channel n1.rf_channel,
      last_seen := now2, is_active := true, is_supernode := a2.is_supernode } := by
  have hkey : (n1.name == a1.name) = true :=
    get_node_key (upsert_node db now1 a1) a1.name n1 h1
  set db1 := upsert_node db now1 a1 with hdb1
  have hfound : get_node db1 a2.name = some n1 := by rw [hname]; exact h1
  unfold upsert_node at h2
  rw [hfound] at h2
  dsimp only at h2
  rw [get_node_map db1 _ a1.name (fun n => by split <;> rfl), h1] at h2
  have hl2 := (Option.some.inj h2).symm; dsimp only at hl2
  have hk2 : (n1.name == a2.name) = true := by rw [hname]; exact hkey
  rw [if_pos hk2] at hl2
  exact hl2

/-- Witness for C9: the second observation keeps the stored ip, overwrites
the model, refreshes last_seen and keeps the node active. -/
theorem C9_witness :
    get_node (upsert_node (upsert_node empty_db 5 ex_node_args1) 9 ex_node_args2)
      "alpha" = some ex_node_after2 ∧
    ex_node_after2 = { ex_node_after1 with
      ip := coalesce ex_node_args2.ip ex_node_after1.ip,
      description := coalesce ex_node_args2.description ex_node_after1.description,
      model := coalesce ex_node_args2.model ex_node_after1.model,
      firmware_version := coalesce ex_node_args2.firmware_version ex_node_after1.firmware_version,
      lat := coalesce ex_node_args2.lat ex_node_after1.lat,
      lon := coalesce ex_node_args2.lon ex_node_after1.lon,
      rf_frequency := coalesce ex_node_args2.rf_frequency ex_node_after1.rf_frequency,
      rf_channel := coalesce ex_node_args2.rf_channel ex_node_after1.rf_channel,
      last_seen := 9, is_active := true, is_supernode := ex_node_args2.is_supernode } :=
  ⟨rfl,
   C9_upsert_node_coalesce_merge empty_db 5 9 ex_node_args1 ex_node_args2 rfl
     ex_node_after1 ex_node_after2 rfl rfl⟩

/-- C3 (code-bug evidence): the orphan node with a fresh last_seen and no
link rows survives a complete run_scan still active — the scan's node sweep
checks only last_seen staleness — whereas database.mark_orphan_nodes_inactive
(which no caller ever invokes) would deactivate exactly this node. -/
theorem C3_orphan_not_deactivated_by_scan :
    ex_fresh_orphan.is_active = true ∧
    get_orphan_nodes ex_orphan_db = [("charlie", some "10.1.1.1")] ∧
    ((run_scan (fun _ => none) false "10.0.0.7" 5 1000 5 ex_orphan_db).db.nodes.map
        Node.is_active = [true]) ∧
    ((mark_orphan_nodes_inactive ex_orphan_db).1.nodes.map Node.is_active = [false]) :=
  ⟨rfl, rfl, rfl, rfl⟩

/-- Counterexample for C6: with the empty (falsy) address, ping_node returns
None — an absence of a result — not a total-loss record. -/
theorem C6_counterexample_empty_address :
    ping_node "" 5 5 PingOutcome.exception = none := rfl

/-- C6 amended: for every non-empty address (and any count and timeout)
ping_node returns a result object, and a subprocess timeout, an exception,
and unparseable output on either platform all yield the total-loss record
with loss 100 and null min/avg/max. -/
theorem C6_amended_nonnull_result (ip : String) (count timeout_s : Nat)
    (oc : PingOutcome) (h : ¬ ip = "") :
    (ping_node ip count timeout_s oc).isSome = true ∧
    ping_node ip count timeout_s PingOutcome.timeout_expired = some total_loss_result ∧
    ping_node ip count timeout_s PingOutcome.exception = some total_loss_result ∧
    ping_node ip count timeout_s (PingOutcome.unix ⟨none, none⟩) = some total_loss_result ∧
    ping_node ip count timeout_s (PingOutcome.windows ⟨none, none, none, true⟩) =
      some total_loss_result := by
  have hb : (ip == "") = false := by
    simp only [beq_eq_false_iff_ne, ne_eq]
    exact h
  unfold ping_node
  rw [hb]
  exact ⟨rfl, rfl, rfl, rfl, rfl⟩

/-- Witness for the amended C6 at a concrete address and a parsed probe. -/
theorem C6_amended_witness :
    (ping_node "10.0.0.1" 5 5
        (PingOutcome.unix ⟨some 20, some (10, 15, 20)⟩)).isSome = true ∧
    ping_node "10.0.0.1" 5 5 PingOutcome.timeout_expired = some total_loss_result ∧
    ping_node "10.0.0.1" 5 5 PingOutcome.exception = some total_loss_result ∧
    ping_node "10.0.0.1" 5 5 (PingOutcome.unix ⟨none, none⟩) = some total_loss_result ∧
    ping_node "10.0.0.1" 5 5 (PingOutcome.windows ⟨none, none, none, true⟩) =
      some total_loss_result :=
  C6_amended_nonnull_result "10.0.0.1" 5 5
    (PingOutcome.unix ⟨some 20, some (10, 15, 20)⟩) (by decide)

/-- A thread parked at a non-region phase by an update contributes nothing to
the test region. -/
theorem region_update_elim {n : Nat} (f : Fin n → IperfPhase) (i j : Fin n)
    (ph : IperfPhase) (hph : in_test_region ph = false)
    (hj : in_test_region (Function.update f i ph j) = true) :
    j ≠ i ∧ in_test_region (f j) = true := by
  by_cases hji : j = i
  · subst hji
    rw [Function.update_same] at hj
    rw [hph] at hj
    cases hj
  · rw [Function.update_noteq hji] at hj
    exact ⟨hji, hj⟩

/-- A region member after an update is the updated thread or an old member. -/
theorem region_update_cases {n : Nat} (f : Fin n → IperfPhase) (i j : Fin n)
    (ph : IperfPhase)
    (hj : in_test_region (Function.update f i ph j) = true) :
    j = i ∨ in_test_region (f j) = true := by
  by_cases hji : j = i
  · exact Or.inl hji
  · rw [Function.update_noteq hji] at hj
    exact Or.inr hj

/-- The single-flight invariant is preserved by every interleaved step. -/
theorem iperf_inv_step {n : Nat} {s s2 : IperfSys n} (hinv : iperf_inv s)
    (hstep : IperfStep s s2) : iperf_inv s2 := by
  obtain ⟨hiff, huniq⟩ := hinv
  cases hstep with
  | skip_running i hent hrun =>
    refine ⟨⟨fun hr => ?_, fun _ => hrun⟩, fun j k hj hk => ?_⟩
    · obtain ⟨j, hj⟩ := hiff.mp hr
      have hji : j ≠ i := by
        intro he
        rw [he, hent] at hj
        cases hj
      exact ⟨j, by dsimp only; rw [Function.update_noteq hji]; exact hj⟩
    · obtain ⟨hjne, hj2⟩ := region_update_elim s.threads i j .done rfl hj
      obtain ⟨hkne, hk2⟩ := region_update_elim s.threads i k .done rfl hk
      exact huniq j k hj2 hk2
  | skip_empty i hent hrun hmin =>
    refine ⟨⟨fun hr => ?_, fun hex => ?_⟩, fun j k hj hk => ?_⟩
    · dsimp only at hr
      rw [hrun] at hr
      cases hr
    · obtain ⟨j, hj⟩ := hex
      obtain ⟨hjne, hj2⟩ := region_update_elim s.threads i j .done rfl hj
      exact hiff.mpr ⟨j, hj2⟩
    · obtain ⟨hjne, hj2⟩ := region_update_elim s.threads i j .done rfl hj
      obtain ⟨hkne, hk2⟩ := region_update_elim s.threads i k .done rfl hk
      exact huniq j k hj2 hk2
  | acquire i item hent hrun hmin =>
    refine ⟨⟨fun _ => ⟨i, by dsimp only; rw [Function.update_same]; rfl⟩, fun _ => rfl⟩,
            fun j k hj hk => ?_⟩
    have hji : j = i := by
      rcases region_update_cases s.threads i j .testing hj with h | h
      · exact h
      · exact absurd (hiff.mpr ⟨j, h⟩) (by rw [hrun]; exact fun he => by cases he)
    have hki : k = i := by
      rcases region_update_cases s.threads i k .testing hk with h | h
      · exact h
      · exact absurd (hiff.mpr ⟨k, h⟩) (by rw [hrun]; exact fun he => by cases he)
    rw [hji, hki]
  | run_body i hent =>
    refine ⟨⟨fun _ => ⟨i, by dsimp only; rw [Function.update_same]; rfl⟩,
             fun _ => hiff.mpr ⟨i, by rw [hent]; rfl⟩⟩,
            fun j k hj hk => ?_⟩
    have hji : j = i := by
      rcases region_update_cases s.threads i j .finishing hj with h | h
      · exact h
      · exact huniq j i h (by rw [hent]; rfl)
    have hki : k = i := by
      rcases region_update_cases s.threads i k .finishing hk with h | h
      · exact h
      · exact huniq k i h (by rw [hent]; rfl)
    rw [hji, hki]
  | release i hent =>
    refine ⟨⟨fun hr => absurd hr (fun he => by dsimp only at he; cases he), fun hex => ?_⟩,
            fun j k hj hk => ?_⟩
    · obtain ⟨j, hj⟩ := hex
      obtain ⟨hjne, hj2⟩ := region_update_elim s.threads i j .done rfl hj
      exact absurd (huniq j i hj2 (by rw [hent]; rfl)) hjne
    · obtain ⟨hjne, hj2⟩ := region_update_elim s.threads i j .done rfl hj
      exact absurd (huniq j i hj2 (by rw [hent]; rfl)) hjne

/-- The single-flight invariant holds along every reachable state. -/
theorem iperf_inv_reach {n : Nat} {a b : IperfSys n}
    (h : Relation.ReflTransGen IperfStep a b) (ha : iperf_inv a) : iperf_inv b := by
  induction h with
  | refl => exact ha
  | tail _ hstep ih => exact iperf_inv_step ih hstep

/-- The invariant holds initially: flag down, every thread at entry. -/
theorem iperf_inv_init {n : Nat} (init : IperfSys n)
    (h1 : init.iperf_running = false) (h2 : ∀ i, init.threads i = .entry) :
    iperf_inv init := by
  refine ⟨⟨fun hr => ?_, fun hex => ?_⟩, fun i j hi _ => ?_⟩
  · rw [h1] at hr
    cases hr
  · obtain ⟨j, hj⟩ := hex
    rw [h2 j] at hj
    cases hj
  · rw [h2 i] at hi
    cases hi

/-- C7: under arbitrarily interleaved concurrent invocations of
process_iperf_queue starting from an idle flag, at most one thread is ever
inside the test-execution region; once every invocation has returned the
running flag is down; and a single sequential invocation started with the
flag down returns with the flag down on every body path (no stored IP,
quality re-check failure, probe failure, probe success), the finally block
releasing it unconditionally. -/
theorem C7_single_flight_iperf :
    (∀ (n : Nat) (init s : IperfSys n),
        init.iperf_running = false → (∀ i, init.threads i = .entry) →
        Relation.ReflTransGen IperfStep init s →
        ∀ i j : Fin n, in_test_region (s.threads i) = true →
          in_test_region (s.threads j) = true → i = j) ∧
    (∀ (n : Nat) (init s : IperfSys n),
        init.iperf_running = false → (∀ i, init.threads i = .entry) →
        Relation.ReflTransGen IperfStep init s →
        (∀ i, s.threads i = .done) → s.iperf_running = false) ∧
    (∀ (s : IperfState) (oc : IperfBodyOutcome),
        s.iperf_running = false → (process_iperf_queue s oc).iperf_running = false) := by
  refine ⟨?_, ?_, ?_⟩
  · intro n init s h1 h2 hreach i j hi hj
    exact (iperf_inv_reach hreach (iperf_inv_init init h1 h2)).2 i j hi hj
  · intro n init s h1 h2 hreach hdone
    have hinv := iperf_inv_reach hreach (iperf_inv_init init h1 h2)
    cases hr : s.iperf_running with
    | false => rfl
    | true =>
      obtain ⟨j, hj⟩ := hinv.1.mp hr
      rw [hdone j] at hj
      cases hj
  · intro s oc h
    unfold process_iperf_queue
    rw [h]
    cases hmin : min_priority_item s.iperf_queue with
    | none => simp [hmin, h]
    | some item => simp [hmin]

/-- Witness for C7: the sequential invocation on the concrete idle state
returns with the flag down, and after thread 0 of the two concurrent
invocations acquires the flag, the region membership of thread 0 is
consistent with mutual exclusion. -/
theorem C7_witness :
    ex_iperf_state.iperf_running = false ∧
    (process_iperf_queue ex_iperf_state IperfBodyOutcome.probe_failed).iperf_running = false ∧
    (0 : Fin 2) = (0 : Fin 2) :=
  ⟨rfl,
   C7_single_flight_iperf.2.2 ex_iperf_state IperfBodyOutcome.probe_failed rfl,
   C7_single_flight_iperf.1 2 ex_iperf_sys ex_iperf_sys2 rfl (fun _ => rfl)
     (Relation.ReflTransGen.single (IperfStep.acquire ex_iperf_sys 0 ex_queue_item rfl rfl rfl))
     0 0 rfl rfl⟩

/-- The discovered component of one tracker-loop iteration: the candidate is
appended exactly under frontier_pred, whatever the persistence branch did. -/
theorem process_one_tracker_disc (show_tunnels : Bool) (now : Int) (source : String)
    (acc : DB × List Discovered × List Event) (t : TrackerData) :
    (process_one_tracker show_tunnels now source acc t).2.1 =
      acc.2.1 ++ (if frontier_pred t then [tracker_candidate t] else []) := by
  obtain ⟨db, disc, events⟩ := acc
  unfold process_one_tracker frontier_pred tracker_candidate
  by_cases h1 : (str_lower t.hostname == "") = true
  · simp [h1]
  · by_cases h2 : (t.routable && truthy_str t.canonical_ip) = true
    · simp [h1, h2]
    · simp [h1, h2]

/-- The discovered component of the tracker fold. -/
theorem foldl_trackers_disc (show_tunnels : Bool) (now : Int) (source : String)
    (ts : List TrackerData) :
    ∀ acc : DB × List Discovered × List Event,
      (ts.foldl (process_one_tracker show_tunnels now source) acc).2.1 =
        acc.2.1 ++ (ts.filter frontier_pred).map tracker_candidate := by
  induction ts with
  | nil => intro acc; simp
  | cons t ts ih =>
    intro acc
    rw [List.foldl_cons, ih, process_one_tracker_disc]
    by_cases hp : frontier_pred t = true
    · simp [List.filter_cons, hp]
    · simp [List.filter_cons, hp]

/-- The frontier candidates of process_links: the qualifying trackers in
report order, independent of the store and of tunnel visibility. -/
theorem process_links_disc (show_tunnels : Bool) (now : Int) (db : DB)
    (source : String) (trackers : List TrackerData) :
    (process_links show_tunnels now db source trackers).2.1 =
      (trackers.filter frontier_pred).map tracker_candidate := by
  unfold process_links
  rw [foldl_trackers_disc]
  rfl

/-- upsert_link leaves a link row present for its own key. -/
theorem upsert_link_creates (db : DB) (now : Int) (a : LinkArgs) :
    get_link (upsert_link db now a) a.source_node a.target_node ≠ none := by
  unfold upsert_link
  cases hex : get_link db a.source_node a.target_node with
  | none =>
    dsimp only
    unfold get_link at hex ⊢
    rw [List.find?_append, hex]
    simp
  | some l0 =>
    dsimp only
    by_cases hst : l0.status = .dropped ∨ l0.status = .removed
    · rw [if_pos hst,
        get_link_map db _ a.source_node a.target_node
          (fun r => by split <;> rfl) (fun r => by split <;> rfl), hex]
      simp
    · rw [if_neg hst,
        get_link_map db _ a.source_node a.target_node
          (fun r => by split <;> rfl) (fun r => by split <;> rfl), hex]
      simp

/-- upsert_link never deletes a link row. -/
theorem upsert_link_preserves (db : DB) (now : Int) (a : LinkArgs) (s t : String)
    (h : get_link db s t ≠ none) :
    get_link (upsert_link db now a) s t ≠ none := by
  unfold upsert_link
  cases hex : get_link db a.source_node a.target_node with
  | none =>
    dsimp only
    unfold get_link at h ⊢
    cases hf : db.links.find? (fun l => l.source_node == s && l.target_node == t) with
    | none => exact absurd hf h
    | some l =>
      rw [List.find?_append, hf]
      simp
  | some l0 =>
    dsimp only
    by_cases hst : l0.status = .dropped ∨ l0.status = .removed
    · rw [if_pos hst,
        get_link_map db _ s t (fun r => by split <;> rfl) (fun r => by split <;> rfl)]
      cases hf : get_link db s t with
      | none => exact absurd hf h
      | some l => simp
    · rw [if_neg hst,
        get_link_map db _ s t (fun r => by split <;> rfl) (fun r => by split <;> rfl)]
      cases hf : get_link db s t with
      | none => exact absurd hf h
      | some l => simp

/-- One tracker iteration never deletes a link row. -/
theorem process_one_tracker_preserves_link (show_tunnels : Bool) (now : Int)
    (source : String) (acc : DB × List Discovered × List Event) (t : TrackerData)
    (s2 t2 : String) (h : get_link acc.1 s2 t2 ≠ none) :
    get_link (process_one_tracker show_tunnels now source acc t).1 s2 t2 ≠ none := by
  obtain ⟨db, disc, events⟩ := acc
  unfold process_one_tracker
  by_cases h1 : (str_lower t.hostname == "") = true
  · simp only [h1, if_true]
    exact h
  · have h1f : (str_lower t.hostname == "") = false := Bool.eq_false_iff.mpr h1
    by_cases h2 : (!tunnel_types.contains (str_upper t.ttype) || show_tunnels) = true
    · simp only [h1f, Bool.false_eq_true, if_false, h2, if_true]
      exact upsert_link_preserves db now _ s2 t2 h
    · have h2f : (!tunnel_types.contains (str_upper t.ttype) || show_tunnels) = false :=
        Bool.eq_false_iff.mpr h2
      simp only [h1f, Bool.false_eq_true, if_false, h2f]
      exact h

/-- One tracker iteration on a visible tracker leaves its link row present. -/
theorem process_one_tracker_creates (show_tunnels : Bool) (now : Int)
    (source : String) (acc : DB × List Discovered × List Event) (t : TrackerData)
    (hhost : (str_lower t.hostname == "") = false)
    (hvis : (!tunnel_types.contains (str_upper t.ttype) || show_tunnels) = true) :
    get_link (process_one_tracker show_tunnels now source acc t).1
      source (str_lower t.hostname) ≠ none := by
  obtain ⟨db, disc, events⟩ := acc
  unfold process_one_tracker
  simp only [hhost, Bool.false_eq_true, if_false, hvis, if_true]
  exact upsert_link_creates db now
    { source_node := source, target_node := str_lower t.hostname,
      link_type := t.ttype, quality := t.quality, snr := t.snr, distance := t.distance }

/-- The tracker fold never deletes a link row. -/
theorem foldl_trackers_preserves_link (show_tunnels : Bool) (now : Int)
    (source : String) (ts : List TrackerData) :
    ∀ (acc : DB × List Discovered × List Event) (s2 t2 : String),
      get_link acc.1 s2 t2 ≠ none →
      get_link (ts.foldl (process_one_tracker show_tunnels now source) acc).1 s2 t2 ≠ none := by
  induction ts with
  | nil => intro acc s2 t2 h; exact h
  | cons t ts ih =>
    intro acc s2 t2 h
    rw [List.foldl_cons]
    exact ih _ s2 t2 (process_one_tracker_preserves_link show_tunnels now source acc t s2 t2 h)

/-- After the tracker fold, every visible tracker of the list has its link
row present. -/
theorem foldl_trackers_records (show_tunnels : Bool) (now : Int) (source : String)
    (ts : List TrackerData) :
    ∀ (acc : DB × List Discovered × List Event) (t : TrackerData), t ∈ ts →
      (str_lower t.hostname == "") = false →
      (!tunnel_types.contains (str_upper t.ttype) || show_tunnels) = true →
      get_link (ts.foldl (process_one_tracker show_tunnels now source) acc).1
        source (str_lower t.hostname) ≠ none := by
  induction ts with
  | nil => intro acc t hmem; cases hmem
  | cons u us ih =>
    intro acc t hmem hhost hvis
    rw [List.foldl_cons]
    rcases List.mem_cons.mp hmem with he | hm
    · subst he
      exact foldl_trackers_preserves_link show_tunnels now source us _
        source (str_lower t.hostname)
        (process_one_tracker_creates show_tunnels now source acc t hhost hvis)
    · exact ih _ t hm hhost hvis

/-- C8: a tracker with a non-empty hostname becomes a frontier candidate
exactly when it is routable with a truthy canonical IP — the discovered list
equals the filter of qualifying trackers for every store and every tunnel
visibility setting — while tunnel classification and the show_tunnels
setting affect only persistence: a hidden tunnel tracker leaves the store
untouched, and a visible tracker's link row is persisted. -/
theorem C8_frontier_independent_of_visibility :
    (∀ (show_tunnels : Bool) (now : Int) (db : DB) (source : String)
        (trackers : List TrackerData),
        (process_links show_tunnels now db source trackers).2.1 =
          (trackers.filter frontier_pred).map tracker_candidate) ∧
    (∀ (show_tunnels : Bool) (now : Int) (db : DB) (source : String)
        (acc_d : List Discovered) (acc_e : List Event) (t : TrackerData),
        (str_lower t.hostname == "") = false →
        (tunnel_types.contains (str_upper t.ttype) && !show_tunnels) = true →
        (process_one_tracker show_tunnels now source (db, acc_d, acc_e) t).1 = db) ∧
    (∀ (show_tunnels : Bool) (now : Int) (db : DB) (source : String)
        (acc_d : List Discovered) (acc_e : List Event) (t : TrackerData),
        (str_lower t.hostname == "") = false →
        (!tunnel_types.contains (str_upper t.ttype) || show_tunnels) = true →
        get_link (process_one_tracker show_tunnels now source (db, acc_d, acc_e) t).1
          source (str_lower t.hostname) ≠ none) := by
  refine ⟨?_, ?_, ?_⟩
  · intro show_tunnels now db source trackers
    exact process_links_disc show_tunnels now db source trackers
  · intro show_tunnels now db source acc_d acc_e t hhost htun
    simp only [Bool.and_eq_true, Bool.not_eq_true'] at htun
    unfold process_one_tracker
    simp only [hhost, Bool.false_eq_true, if_false, htun.1, htun.2, Bool.not_true,
      Bool.false_or]
  · intro show_tunnels now db source acc_d acc_e t hhost hvis
    exact process_one_tracker_creates show_tunnels now source (db, acc_d, acc_e) t hhost hvis

/-- Witness for C8: a hidden routable tunnel tracker is still discovered but
persists nothing; a visible non-routable tracker persists its link row. -/
theorem C8_witness :
    (process_links false 0 empty_db "alpha" [ex_tracker_tun, ex_tracker_rf]).2.1 =
      ([ex_tracker_tun, ex_tracker_rf].filter frontier_pred).map tracker_candidate ∧
    (process_one_tracker false 0 "alpha" (empty_db, [], []) ex_tracker_tun).1 = empty_db ∧
    get_link (process_one_tracker false 0 "alpha" (empty_db, [], []) ex_tracker_rf).1
      "alpha" (str_lower ex_tracker_rf.hostname) ≠ none :=
  ⟨C8_frontier_independent_of_visibility.1 false 0 empty_db "alpha"
     [ex_tracker_tun, ex_tracker_rf],
   C8_frontier_independent_of_visibility.2.1 false 0 empty_db "alpha" [] []
     ex_tracker_tun rfl rfl,
   C8_frontier_independent_of_visibility.2.2 false 0 empty_db "alpha" [] []
     ex_tracker_rf rfl rfl⟩

/-- Any property preserved by one BFS iteration holds after the fueled loop. -/
theorem discover_loop_preserves (net : String → Option SysinfoData) (show_tunnels : Bool)
    (max_depth : Nat) (now : Int) (P : ScanState → Prop)
    (hstep : ∀ st, P st → P (discover_step net show_tunnels max_depth now st)) :
    ∀ (fuel : Nat) (st : ScanState),
      P st → P (discover_loop net show_tunnels max_depth now fuel st) := by
  intro fuel
  induction fuel with
  | zero => intro st h; exact h
  | succ k ih =>
    intro st h
    unfold discover_loop
    cases hq : st.queue with
    | nil => exact h
    | cons a as => exact ih _ (hstep st h)

/-- Each BFS iteration keeps links_found equal to the sum, over the processed
reports, of their qualifying-tracker counts. -/
theorem discover_step_links_inv (net : String → Option SysinfoData) (show_tunnels : Bool)
    (max_depth : Nat) (now : Int) (st : ScanState)
    (h : st.links_found = (st.processed.map count_frontier).sum) :
    (discover_step net show_tunnels max_depth now st).links_found =
      ((discover_step net show_tunnels max_depth now st).processed.map count_frontier).sum := by
  unfold discover_step
  cases hq : st.queue with
  | nil => exact h
  | cons p rest =>
    obtain ⟨url, depth⟩ := p
    dsimp only
    split
    · exact h
    · cases hnet : net url with
      | none => exact h
      | some data =>
        dsimp only
        cases hpn : (process_node_data st.db now data).1 with
        | none => exact h
        | some node_name =>
          dsimp only
          split <;> split <;>
            simp [process_links_disc, count_frontier, h]

/-- C10 amended: links_found counts, across all successfully processed
reports, the routable trackers that carry a truthy canonical IP and a
non-empty hostname — persistence (tunnel visibility) plays no role, but a
hostname-less tracker is skipped before the routable check. -/
theorem C10_amended_links_found_eq (net : String → Option SysinfoData)
    (show_tunnels : Bool) (start_url : String) (max_depth : Nat) (now : Int)
    (fuel : Nat) (db : DB) :
    (discover_network net show_tunnels start_url max_depth now fuel db).links_found =
      ((discover_network net show_tunnels start_url max_depth now fuel db).processed.map
        count_frontier).sum := by
  unfold discover_network
  exact discover_loop_preserves net show_tunnels max_depth now
    (fun st => st.links_found = (st.processed.map count_frontier).sum)
    (fun st h => discover_step_links_inv net show_tunnels max_depth now st h)
    fuel (init_scan_state start_url db) rfl

/-- Counterexample for C10: a network whose single node reports one routable
tracker with a canonical IP but an empty hostname — the claim's count over
the processed reports is 1, while discovery's links_found is 0. -/
theorem C10_counterexample :
    (discover_network ex_anon_net false "10.0.0.9" 5 1000 4 empty_db).links_found = 0 ∧
    ((discover_network ex_anon_net false "10.0.0.9" 5 1000 4 empty_db).processed.map
        claimed_links_count).sum = 1 :=
  ⟨rfl, rfl⟩

/-- upsert_node leaves a node row present for its own name. -/
theorem upsert_node_creates (db : DB) (now : Int) (a : NodeArgs) :
    get_node (upsert_node db now a) a.name ≠ none := by
  unfold upsert_node
  cases hex : get_node db a.name with
  | none =>
    dsimp only
    unfold get_node at hex ⊢
    rw [List.find?_append, hex]
    simp
  | some n0 =>
    dsimp only
    rw [get_node_map db _ a.name (fun n => by split <;> rfl), hex]
    simp

/-- On a named report, process_node_data returns the lowercased name and a
store in which that node is present. -/
theorem process_node_data_props (db : DB) (now : Int) (data : SysinfoData)
    (h : (str_lower data.node == "") = false) :
    (process_node_data db now data).1 = some (str_lower data.node) ∧
    get_node (process_node_data db now data).2.2 (str_lower data.node) ≠ none := by
  unfold process_node_data
  simp only [h, Bool.false_eq_true, if_false]
  exact ⟨trivial, upsert_node_creates db now _⟩

/-- upsert_link touches only the links table. -/
theorem upsert_link_nodes (db : DB) (now : Int) (a : LinkArgs) :
    (upsert_link db now a).nodes = db.nodes := by
  unfold upsert_link
  cases hex : get_link db a.source_node a.target_node with
  | none => rfl
  | some l0 =>
    dsimp only
    split <;> rfl

/-- One tracker iteration touches only the links table (and the events and
discovered accumulators). -/
theorem process_one_tracker_nodes (show_tunnels : Bool) (now : Int) (source : String)
    (acc : DB × List Discovered × List Event) (t : TrackerData) :
    (process_one_tracker show_tunnels now source acc t).1.nodes = acc.1.nodes := by
  obtain ⟨db, disc, events⟩ := acc
  unfold process_one_tracker
  by_cases h1 : (str_lower t.hostname == "") = true
  · simp [h1]
  · have h1f := Bool.eq_false_iff.mpr h1
    by_cases h2 : (!tunnel_types.contains (str_upper t.ttype) || show_tunnels) = true
    · simp only [h1f, Bool.false_eq_true, if_false, h2, if_true]
      exact upsert_link_nodes db now _
    · have h2f := Bool.eq_false_iff.mpr h2
      simp only [h1f, Bool.false_eq_true, if_false, h2f]

/-- The tracker fold touches only the links table. -/
theorem foldl_trackers_nodes (show_tunnels : Bool) (now : Int) (source : String)
    (ts : List TrackerData) :
    ∀ acc : DB × List Discovered × List Event,
      (ts.foldl (process_one_tracker show_tunnels now source) acc).1.nodes = acc.1.nodes := by
  induction ts with
  | nil => intro acc; rfl
  | cons t ts ih =>
    intro acc
    rw [List.foldl_cons, ih, process_one_tracker_nodes]

/-- process_links touches only the links table. -/
theorem process_links_nodes (show_tunnels : Bool) (now : Int) (db : DB)
    (source : String) (trackers : List TrackerData) :
    (process_links show_tunnels now db source trackers).1.nodes = db.nodes :=
  foldl_trackers_nodes show_tunnels now source trackers (db, [], [])

/-- Node lookup depends only on the nodes table. -/
theorem get_node_congr (db1 db2 : DB) (h : db1.nodes = db2.nodes) (nm : String) :
    get_node db1 nm = get_node db2 nm := by
  unfold get_node
  rw [h]

/-- Each BFS iteration preserves the depth bound on the frontier and on the
fetch log: only depths strictly below max_depth are ever expanded, at
depth + 1. -/
theorem discover_step_depth_inv (net : String → Option SysinfoData) (show_tunnels : Bool)
    (max_depth : Nat) (now : Int) (st : ScanState)
    (h : (∀ p ∈ st.queue, p.2 ≤ max_depth) ∧ (∀ p ∈ st.fetched, p.2 ≤ max_depth)) :
    (∀ p ∈ (discover_step net show_tunnels max_depth now st).queue, p.2 ≤ max_depth) ∧
    (∀ p ∈ (discover_step net show_tunnels max_depth now st).fetched, p.2 ≤ max_depth) := by
  obtain ⟨hq, hf⟩ := h
  unfold discover_step
  cases hqe : st.queue with
  | nil => exact ⟨hq, hf⟩
  | cons p0 rest =>
    obtain ⟨url, depth⟩ := p0
    rw [hqe] at hq
    have hhead : depth ≤ max_depth := hq (url, depth) (List.mem_cons_self _ _)
    have hrest : ∀ p ∈ rest, p.2 ≤ max_depth := fun p hp => hq p (List.mem_cons_of_mem _ hp)
    have hfetch : ∀ p ∈ ((url, depth) :: st.fetched), p.2 ≤ max_depth := by
      intro p hp
      rcases List.mem_cons.mp hp with he | hm
      · rw [he]
        exact hhead
      · exact hf p hm
    dsimp only
    split
    · exact ⟨hrest, hf⟩
    · cases hnet : net url with
      | none => exact ⟨hrest, hfetch⟩
      | some data =>
        dsimp only
        cases hpn : (process_node_data st.db now data).1 with
        | none => exact ⟨hrest, hfetch⟩
        | some node_name =>
          dsimp only
          by_cases hc : (decide (depth < max_depth) && !is_supernode data) = true
          · have hlt : depth < max_depth := by
              simp only [Bool.and_eq_true, decide_eq_true_eq] at hc
              exact hc.1
            simp only [hc, eq_self_iff_true, if_true]
            split
            · refine ⟨fun p hp => ?_, hfetch⟩
              rcases List.mem_append.mp hp with hm | hm
              · exact hrest p hm
              · obtain ⟨d, hdm, hd⟩ := List.mem_map.mp hm
                rw [← hd]
                exact hlt
            · refine ⟨fun p hp => ?_, hfetch⟩
              rcases List.mem_append.mp hp with hm | hm
              · exact hrest p hm
              · obtain ⟨d, hdm, hd⟩ := List.mem_map.mp hm
                rw [← hd]
                exact hlt
          · have hcf := Bool.eq_false_iff.mpr hc
            simp only [hcf, Bool.false_eq_true, if_false]
            split <;> exact ⟨hrest, hfetch⟩

/-- C5: in every discovery run no address is ever fetched at depth greater
than max_depth; a dequeued node expands the frontier only when its depth is
strictly below max_depth and it is not a supernode (otherwise the queue is
exactly the remaining frontier, so nothing is ever fetched through it); and
a supernode is nevertheless itself recorded, with its visible direct links. -/
theorem C5_depth_bound_and_supernode_leaves :
    (∀ (net : String → Option SysinfoData) (show_tunnels : Bool) (start_url : String)
        (max_depth : Nat) (now : Int) (fuel : Nat) (db : DB),
        ∀ p ∈ (discover_network net show_tunnels start_url max_depth now fuel db).fetched,
          p.2 ≤ max_depth) ∧
    (∀ (net : String → Option SysinfoData) (show_tunnels : Bool) (max_depth : Nat)
        (now : Int) (st : ScanState) (url : String) (depth : Nat)
        (rest : List (String × Nat)) (data : SysinfoData),
        st.queue = (url, depth) :: rest →
        st.visited_urls.contains (str_lower url) = false →
        net url = some data →
        (str_lower data.node == "") = false →
        (is_supernode data = true ∨ max_depth ≤ depth) →
        (discover_step net show_tunnels max_depth now st).queue = rest) ∧
    (∀ (net : String → Option SysinfoData) (show_tunnels : Bool) (max_depth : Nat)
        (now : Int) (st : ScanState) (url : String) (depth : Nat)
        (rest : List (String × Nat)) (data : SysinfoData),
        st.queue = (url, depth) :: rest →
        st.visited_urls.contains (str_lower url) = false →
        net url = some data →
        (str_lower data.node == "") = false →
        is_supernode data = true →
        get_node (discover_step net show_tunnels max_depth now st).db
          (str_lower data.node) ≠ none ∧
        (∀ t ∈ data.trackers, (str_lower t.hostname == "") = false →
          (!tunnel_types.contains (str_upper t.ttype) || show_tunnels) = true →
          get_link (discover_step net show_tunnels max_depth now st).db
            (str_lower data.node) (str_lower t.hostname) ≠ none)) := by
  refine ⟨?_, ?_, ?_⟩
  · intro net show_tunnels start_url max_depth now fuel db
    have hinit : (∀ p ∈ (init_scan_state start_url db).queue, p.2 ≤ max_depth) ∧
        (∀ p ∈ (init_scan_state start_url db).fetched, p.2 ≤ max_depth) := by
      constructor
      · intro p hp
        rcases List.mem_cons.mp hp with he | hm
        · rw [he]
          exact Nat.zero_le max_depth
        · cases hm
      · intro p hp
        cases hp
    exact (discover_loop_preserves net show_tunnels max_depth now
      (fun s => (∀ p ∈ s.queue, p.2 ≤ max_depth) ∧ (∀ p ∈ s.fetched, p.2 ≤ max_depth))
      (fun s hs => discover_step_depth_inv net show_tunnels max_depth now s hs)
      fuel (init_scan_state start_url db) hinit).2
  · intro net show_tunnels max_depth now st url depth rest data hqe hvis hnet hname hsup
    unfold discover_step
    rw [hqe]
    dsimp only
    simp only [hvis, Bool.false_eq_true, if_false]
    rw [hnet]
    dsimp only
    rw [(process_node_data_props st.db now data hname).1]
    dsimp only
    have hcond : (decide (depth < max_depth) && !is_supernode data) = false := by
      rcases hsup with hs | hd
      · simp [hs]
      · simp [Nat.not_lt.mpr hd]
    simp only [hcond, Bool.false_eq_true, if_false]
    split <;> rfl
  · intro net show_tunnels max_depth now st url depth rest data hqe hvis hnet hname hsup
    unfold discover_step
    rw [hqe]
    dsimp only
    simp only [hvis, Bool.false_eq_true, if_false]
    rw [hnet]
    dsimp only
    rw [(process_node_data_props st.db now data hname).1]
    dsimp only
    have hcond : (decide (depth < max_depth) && !is_supernode data) = false := by
      simp [hsup]
    simp only [hcond, Bool.false_eq_true, if_false]
    split <;>
      exact ⟨by
        rw [get_node_congr _ _
          (process_links_nodes show_tunnels now _ (str_lower data.node) data.trackers)
          (str_lower data.node)]
        exact (process_node_data_props st.db now data hname).2,
        fun t hmem hhost hvis2 =>
          foldl_trackers_records show_tunnels now (str_lower data.node) data.trackers
            _ t hmem hhost hvis2⟩

/-- Witness for C5: the supernode at 10.0.0.3 is fetched at depth 0, its
frontier is not expanded (the queue empties), and both the supernode and its
link to delta are recorded. -/
theorem C5_witness :
    ((normalize_start_url "10.0.0.3", 0) : String × Nat).2 ≤ 5 ∧
    (discover_step ex_super_net false 5 1000 (init_scan_state "10.0.0.3" empty_db)).queue
      = [] ∧
    get_node (discover_step ex_super_net false 5 1000
        (init_scan_state "10.0.0.3" empty_db)).db (str_lower ex_super_report.node) ≠ none ∧
    get_link (discover_step ex_super_net false 5 1000
        (init_scan_state "10.0.0.3" empty_db)).db (str_lower ex_super_report.node)
      (str_lower (⟨"RF", "delta", some "10.0.0.4", 90, some 25, none, true⟩ : TrackerData).hostname)
      ≠ none :=
  ⟨C5_depth_bound_and_supernode_leaves.1 ex_super_net false "10.0.0.3" 5 1000 1 empty_db
     (normalize_start_url "10.0.0.3", 0) (List.mem_cons_self _ _),
   C5_depth_bound_and_supernode_leaves.2.1 ex_super_net false 5 1000
     (init_scan_state "10.0.0.3" empty_db) (normalize_start_url "10.0.0.3") 0 []
     ex_super_report rfl rfl rfl rfl (Or.inl rfl),
   (C5_depth_bound_and_supernode_leaves.2.2 ex_super_net false 5 1000
     (init_scan_state "10.0.0.3" empty_db) (normalize_start_url "10.0.0.3") 0 []
     ex_super_report rfl rfl rfl rfl rfl).1,
   (C5_depth_bound_and_supernode_leaves.2.2 ex_super_net false 5 1000
     (init_scan_state "10.0.0.3" empty_db) (normalize_start_url "10.0.0.3") 0 []
     ex_super_report rfl rfl rfl rfl rfl).2
     ⟨"RF", "delta", some "10.0.0.4", 90, some 25, none, true⟩ (List.mem_cons_self _ _)
     rfl rfl⟩

end AREDN
